import Mathlib

/-!
A shallow embedding of the input-handling core of the rogue_thing repository
(`input_handlers.py`, `setup_game.py`): key tables, the mode/handler state
machine, event dispatch, and the turn pipeline (`handle_action` /
`handle_events`).  The Turn Engine internals (`engine.py`), the message log
(`message_log.py`), the map (`game_map.py`) and the action/consumable
collaborators are not part of the excerpted source; where a claim needs them
they are either modelled from the spec (and say so in their doc comment) or
taken as parameters (the `Externals` structure).

Python integers are embedded as `Int` (or `Nat` for key codes and bit masks);
dictionaries as association lists; exceptions as explicit result constructors.
-/

namespace Rogue

/-! ### Key symbols and modifier bit masks (tcod / SDL key codes) -/

namespace KeySym

def RETURN : Nat := 13
def ESCAPE : Nat := 27
def PERIOD : Nat := 46
def SLASH : Nat := 47
def A : Nat := 97
def B : Nat := 98
def C : Nat := 99
def D : Nat := 100
def F : Nat := 102
def G : Nat := 103
def H : Nat := 104
def I : Nat := 105
def J : Nat := 106
def K : Nat := 107
def L : Nat := 108
def N : Nat := 110
def Q : Nat := 113
def U : Nat := 117
def V : Nat := 118
def Y : Nat := 121
def HOME : Nat := 1073741898
def PAGEUP : Nat := 1073741899
def END : Nat := 1073741901
def PAGEDOWN : Nat := 1073741902
def RIGHT : Nat := 1073741903
def LEFT : Nat := 1073741904
def DOWN : Nat := 1073741905
def UP : Nat := 1073741906
def KP_ENTER : Nat := 1073741912
def KP_1 : Nat := 1073741913
def KP_2 : Nat := 1073741914
def KP_3 : Nat := 1073741915
def KP_4 : Nat := 1073741916
def KP_5 : Nat := 1073741917
def KP_6 : Nat := 1073741918
def KP_7 : Nat := 1073741919
def KP_8 : Nat := 1073741920
def KP_9 : Nat := 1073741921
def CLEAR : Nat := 1073741980
def LCTRL : Nat := 1073742048
def LSHIFT : Nat := 1073742049
def LALT : Nat := 1073742050
def RCTRL : Nat := 1073742052
def RSHIFT : Nat := 1073742053
def RALT : Nat := 1073742054

end KeySym

namespace Modifier

def LSHIFT : Nat := 1
def RSHIFT : Nat := 2
def LCTRL : Nat := 64
def RCTRL : Nat := 128
def LALT : Nat := 256
def RALT : Nat := 512

end Modifier

/-- `MOVE_KEYS` (input_handlers.py lines 23-51): key code to `(dx, dy)`. -/
def MOVE_KEYS : List (Nat × (Int × Int)) :=
  [ -- Arrow keys.
    (KeySym.UP, (0, -1)),
    (KeySym.DOWN, (0, 1)),
    (KeySym.LEFT, (-1, 0)),
    (KeySym.RIGHT, (1, 0)),
    (KeySym.HOME, (-1, -1)),
    (KeySym.END, (-1, 1)),
    (KeySym.PAGEUP, (1, -1)),
    (KeySym.PAGEDOWN, (1, 1)),
    -- Numpad keys.
    (KeySym.KP_1, (-1, 1)),
    (KeySym.KP_2, (0, 1)),
    (KeySym.KP_3, (1, 1)),
    (KeySym.KP_4, (-1, 0)),
    (KeySym.KP_6, (1, 0)),
    (KeySym.KP_7, (-1, -1)),
    (KeySym.KP_8, (0, -1)),
    (KeySym.KP_9, (1, -1)),
    -- Vi keys.
    (KeySym.H, (-1, 0)),
    (KeySym.J, (0, 1)),
    (KeySym.K, (0, -1)),
    (KeySym.L, (1, 0)),
    (KeySym.Y, (-1, -1)),
    (KeySym.U, (1, -1)),
    (KeySym.B, (-1, 1)),
    (KeySym.N, (1, 1)) ]

/-- `WAIT_KEYS` (input_handlers.py lines 53-57). -/
def WAIT_KEYS : List Nat := [KeySym.PERIOD, KeySym.KP_5, KeySym.CLEAR]

/-- `CONFIRM_KEYS` (input_handlers.py lines 59-62). -/
def CONFIRM_KEYS : List Nat := [KeySym.RETURN, KeySym.KP_ENTER]

/-- `CURSOR_Y_KEYS` (input_handlers.py lines 64-69). -/
def CURSOR_Y_KEYS : List (Nat × Int) :=
  [ (KeySym.UP, -1),
    (KeySym.DOWN, 1),
    (KeySym.PAGEUP, -10),
    (KeySym.PAGEDOWN, 10) ]

/-! ### Engine state

`engine.py`, `entity.py`, `game_map.py` and `message_log.py` are not part of
the excerpted source; the handlers in `input_handlers.py` only read and write
the fields below, so the state is modelled from the spec (sections 3, 4.2,
4.3) at exactly that granularity.  Color values are opaque tags. -/

namespace Color

def impossible : String := "impossible"
def invalid : String := "invalid"

end Color

/-- A message log entry: text, color tag and repeat count (spec section 3). -/
structure Message where
  text : String
  colorTag : String
  count : Nat
deriving DecidableEq

/-- The message log: an ordered list of entries, newest last. -/
structure MessageLog where
  messages : List Message
deriving DecidableEq

/-- Modelled from the spec (section 4.3), `message_log.py` being absent from
the excerpt: if the new message's text and color exactly match the tail entry,
increment the tail's repeat counter instead of appending; otherwise append a
new entry with count 1. -/
def MessageLog.add_message (log : MessageLog) (text : String) (colorTag : String) :
    MessageLog :=
  match log.messages.getLast? with
  | some tail =>
    if tail.text = text ∧ tail.colorTag = colorTag then
      ⟨log.messages.dropLast ++ [⟨tail.text, tail.colorTag, tail.count + 1⟩]⟩
    else
      ⟨log.messages ++ [⟨text, colorTag, 1⟩]⟩
  | none => ⟨[⟨text, colorTag, 1⟩]⟩

/-- Map dimensions, the only part of `game_map.py` the handlers read. -/
structure GameMap where
  width : Int
  height : Int
deriving DecidableEq

/-- Modelled from the spec (section 6, the map collaborator's tile bounds
test; section 8 spells it as `0 <= x < map.width and 0 <= y < map.height`);
`game_map.py` is absent from the excerpt. -/
def GameMap.in_bounds (m : GameMap) (x y : Int) : Bool :=
  decide (0 ≤ x) && decide (x < m.width) && decide (0 ≤ y) && decide (y < m.height)

/-- An inventory item; the handlers only pass it around. -/
structure Item where
  name : String
deriving DecidableEq

/-- The player entity fields the handlers read (`entity.py` is absent). -/
structure Player where
  x : Int
  y : Int
  is_alive : Bool
  inventory_items : List Item
deriving DecidableEq

/-- The Turn Engine state the handlers read and write (`engine.py` is absent;
fields from the spec, section 3: player, map, message log, cursor location,
implicit turn counter). -/
structure Engine where
  player : Player
  game_map : GameMap
  message_log : MessageLog
  mouse_location : Int × Int
  turn_count : Nat
deriving DecidableEq

/-! ### Actions, handlers, events -/

/-- The action values the handlers construct (`actions.py` is absent; the
constructors are exactly the ones `input_handlers.py` names, plus `useItem`
for actions produced by the item/consumable collaborator). -/
inductive ActionVal where
  | bump (dx dy : Int)
  | wait
  | pickup
  | takeStairs
  | dropItem (item : Item)
  | useItem (item : Item)
deriving DecidableEq

/-- The handler (mode) state machine.  Each engine-holding handler carries the
engine it was constructed with (`self.engine`); `historyViewer` additionally
carries `log_length` and `cursor`, the targeting handlers their callback, and
`popup` its parent handler. -/
inductive Handler where
  | mainMenu
  | popup (parent : Handler) (text : String)
  | mainGame (engine : Engine)
  | gameOver (engine : Engine)
  | historyViewer (engine : Engine) (log_length : Nat) (cursor : Int)
  | inventoryActivate (engine : Engine)
  | inventoryDrop (engine : Engine)
  | look (engine : Engine)
  | singleRanged (engine : Engine) (callback : Int × Int → Option ActionVal)
  | areaRanged (engine : Engine) (radius : Int)
      (callback : Int × Int → Option ActionVal)

/-- `ActionOrHandler` (input_handlers.py line 71). -/
inductive ActionOrHandler where
  | action (a : ActionVal)
  | handler (h : Handler)

/-- The engine held by a handler, if any (`MainMenu` and `PopupMessage`
extend `BaseEventHandler` and hold none; every other handler extends
`EventHandler` and holds one). -/
def Handler.engineOf : Handler → Option Engine
  | .mainMenu => none
  | .popup _ _ => none
  | .mainGame e => some e
  | .gameOver e => some e
  | .historyViewer e _ _ => some e
  | .inventoryActivate e => some e
  | .inventoryDrop e => some e
  | .look e => some e
  | .singleRanged e _ => some e
  | .areaRanged e _ _ => some e

/-- Replace the engine a handler holds (the effect, on `self`, of the shared
mutable engine being updated in place). -/
def Handler.withEngine : Handler → Engine → Handler
  | .mainMenu, _ => .mainMenu
  | .popup p t, _ => .popup p t
  | .mainGame _, e => .mainGame e
  | .gameOver _, e => .gameOver e
  | .historyViewer _ len cur, e => .historyViewer e len cur
  | .inventoryActivate _, e => .inventoryActivate e
  | .inventoryDrop _, e => .inventoryDrop e
  | .look _, e => .look e
  | .singleRanged _ cb, e => .singleRanged e cb
  | .areaRanged _ r cb, e => .areaRanged e r cb

/-- The mode a handler is in, with the data stripped. -/
inductive ModeTag where
  | mainMenu
  | popup
  | mainGame
  | gameOver
  | historyViewer
  | inventoryActivate
  | inventoryDrop
  | look
  | singleRanged
  | areaRanged
deriving DecidableEq

def Handler.mode : Handler → ModeTag
  | .mainMenu => .mainMenu
  | .popup _ _ => .popup
  | .mainGame _ => .mainGame
  | .gameOver _ => .gameOver
  | .historyViewer _ _ _ => .historyViewer
  | .inventoryActivate _ => .inventoryActivate
  | .inventoryDrop _ => .inventoryDrop
  | .look _ => .look
  | .singleRanged _ _ => .singleRanged
  | .areaRanged _ _ _ => .areaRanged

/-- The three targeting modes (`SelectIndexHandler` subclasses). -/
def Handler.isTargeting : Handler → Bool
  | .look _ => true
  | .singleRanged _ _ => true
  | .areaRanged _ _ _ => true
  | _ => false

/-- The input events the handlers dispatch on. -/
inductive Event where
  | keyDown (sym : Nat) (mod : Nat)
  | mouseMotion (x y : Int)
  | mouseButtonDown (x y : Int) (button : Nat)

/-! ### External collaborators -/

/-- Outcome of `action.perform()`: either a mutated engine, or the
`Impossible` rejection signal carrying its reason. -/
inductive PerformResult where
  | ok (e : Engine)
  | impossible (reason : String)

/-- Outcome of opening and reading a file. -/
inductive FileReadResult where
  | ok (data : List Nat)
  | notFound

/-- Outcome of `pickle.loads(lzma.decompress(data))` plus the
`isinstance(engine, Engine)` assertion: an engine, or an exception message. -/
inductive DecodeResult where
  | ok (e : Engine)
  | fail (msg : String)

/-- The external collaborators the excerpted handlers call into:
the action semantics (`actions.py`), the Turn Engine's enemy-turn and
visibility phases (`engine.py`), the item/consumable hook
(`item.consumable.get_action`, which may construct a handler and, in doing
so, mutate the engine), and the filesystem/decoder behind
`load_game("savegame.sav")`. -/
structure Externals where
  perform : ActionVal → Engine → PerformResult
  handle_enemy_turns : Engine → Engine
  update_fov : Engine → Engine
  get_action : Item → Engine → Option ActionOrHandler × Engine
  read_savegame : FileReadResult
  decode : List Nat → DecodeResult

/-- Outcome of `load_game` (setup_game.py lines 55-60). -/
inductive LoadResult where
  | ok (e : Engine)
  | fileNotFound
  | err (msg : String)

/-- `load_game` (setup_game.py lines 55-60): open the save file (raising
`FileNotFoundError` when absent), then decompress and unpickle it and assert
the result is an `Engine`; the filesystem read and the decoder are external
and given as parameters. -/
def load_game (read : FileReadResult) (decode : List Nat → DecodeResult) :
    LoadResult :=
  match read with
  | .notFound => .fileNotFound
  | .ok data =>
    match decode data with
    | .ok e => .ok e
    | .fail msg => .err msg

/-! ### Event dispatch -/

/-- Result of dispatching one event to a handler: a returned value together
with `self` (whose engine the dispatch may have mutated in place), or a raised
exception (`SystemExit`, `QuitWithoutSaving`, or an uncaught Python error such
as `UnboundLocalError`, `AttributeError`, `NameError`). -/
inductive DispatchOut where
  | ret (r : Option ActionOrHandler) (self : Handler)
  | systemExit
  | quitWithoutSaving
  | error (kind : String) (self : Handler)

/-- `SelectIndexHandler.__init__` (input_handlers.py lines 273-277): sets the
engine's cursor to the player's position. -/
def mkSelectIndexEngine (e : Engine) : Engine :=
  { e with mouse_location := (e.player.x, e.player.y) }

/-- `AskUserEventHandler.ev_keydown` (input_handlers.py lines 159-171): a bare
modifier key is ignored; any other key falls to `on_exit`, which returns
`MainGameEventHandler(self.engine)`. -/
def AskUserEventHandler.ev_keydown_default (self : Handler) (e : Engine)
    (sym : Nat) : DispatchOut :=
  if sym = KeySym.LSHIFT ∨ sym = KeySym.RSHIFT ∨ sym = KeySym.LCTRL ∨
      sym = KeySym.RCTRL ∨ sym = KeySym.LALT ∨ sym = KeySym.RALT then
    .ret none self
  else
    .ret (some (.handler (.mainGame e))) self

/-- `InventoryEventHandler.ev_keydown` (input_handlers.py lines 234-246).
When the slot index is in `0..26` but past the end of the inventory, the code
adds the "Invalid entry" message and then falls through to
`return self.on_item_selected(selected_item)` with `selected_item` unbound,
raising `UnboundLocalError`.  `on_item_selected` is inlined per subclass:
Activate asks the item's consumable for an action or handler, Drop returns a
`DropItem` action. -/
def InventoryEventHandler.ev_keydown (X : Externals) (self : Handler)
    (isActivate : Bool) (e : Engine) (sym : Nat) : DispatchOut :=
  let index : Int := (sym : Int) - (KeySym.A : Int)
  if 0 ≤ index ∧ index ≤ 26 then
    match e.player.inventory_items.get? index.toNat with
    | some selected_item =>
      if isActivate then
        let out := X.get_action selected_item e
        .ret out.1 (self.withEngine out.2)
      else
        .ret (some (.action (.dropItem selected_item))) self
    | none =>
      let e' := { e with
        message_log := e.message_log.add_message ("Invalid entry") Color.invalid }
      .error ("UnboundLocalError") (self.withEngine e')
  else
    AskUserEventHandler.ev_keydown_default self e sym

/-- `SelectIndexHandler.on_index_selected` (input_handlers.py lines 320-322
and its overrides, lines 326-328, 339-340, 372-373). -/
def SelectIndexHandler.on_index_selected (self : Handler) (e : Engine)
    (x y : Int) : DispatchOut :=
  match self with
  | .look _ => .ret (some (.handler (.mainGame e))) self
  | .singleRanged _ cb => .ret ((cb (x, y)).map .action) self
  | .areaRanged _ _ cb => .ret ((cb (x, y)).map .action) self
  | _ => .error ("NotImplementedError") self

/-- `SelectIndexHandler.ev_keydown` (input_handlers.py lines 286-309):
movement keys move the cursor, scaled by held modifiers (times 5 for shift,
times 10 for control, times 20 for alt, multiplied together) and clamped to
the map; confirm keys resolve the selection; anything else falls back to the
ask-user default. -/
def SelectIndexHandler.ev_keydown (self : Handler) (e : Engine)
    (sym : Nat) (mod : Nat) : DispatchOut :=
  match MOVE_KEYS.lookup sym with
  | some d =>
    let modifier : Int := 1
    let modifier : Int :=
      if mod &&& (Modifier.LSHIFT ||| Modifier.RSHIFT) ≠ 0 then modifier * 5
      else modifier
    let modifier : Int :=
      if mod &&& (Modifier.LCTRL ||| Modifier.RCTRL) ≠ 0 then modifier * 10
      else modifier
    let modifier : Int :=
      if mod &&& (Modifier.LALT ||| Modifier.RALT) ≠ 0 then modifier * 20
      else modifier
    let x := e.mouse_location.1 + d.1 * modifier
    let y := e.mouse_location.2 + d.2 * modifier
    -- clamp the cursor index to map size
    let x := max 0 (min x (e.game_map.width - 1))
    let y := max 0 (min y (e.game_map.height - 1))
    .ret none (self.withEngine { e with mouse_location := (x, y) })
  | none =>
    if CONFIRM_KEYS.contains sym then
      SelectIndexHandler.on_index_selected self e
        e.mouse_location.1 e.mouse_location.2
    else
      AskUserEventHandler.ev_keydown_default self e sym

/-- `MainGameEventHandler.ev_keydown` (input_handlers.py lines 376-410). -/
def MainGameEventHandler.ev_keydown (e : Engine) (sym : Nat) (mod : Nat) :
    DispatchOut :=
  if sym = KeySym.PERIOD ∧ mod &&& (Modifier.LSHIFT ||| Modifier.RSHIFT) ≠ 0 then
    .ret (some (.action .takeStairs)) (.mainGame e)
  else
    match MOVE_KEYS.lookup sym with
    | some d => .ret (some (.action (.bump d.1 d.2))) (.mainGame e)
    | none =>
      if WAIT_KEYS.contains sym then
        .ret (some (.action .wait)) (.mainGame e)
      else if sym = KeySym.ESCAPE then
        .systemExit
      else if sym = KeySym.V then
        .ret (some (.handler (.historyViewer e e.message_log.messages.length
          ((e.message_log.messages.length : Int) - 1)))) (.mainGame e)
      else if sym = KeySym.G then
        .ret (some (.action .pickup)) (.mainGame e)
      else if sym = KeySym.I then
        .ret (some (.handler (.inventoryActivate e))) (.mainGame e)
      else if sym = KeySym.D then
        .ret (some (.handler (.inventoryDrop e))) (.mainGame e)
      else if sym = KeySym.SLASH then
        .ret (some (.handler (.look (mkSelectIndexEngine e))))
          (.mainGame (mkSelectIndexEngine e))
      else
        .ret none (.mainGame e)

/-- `GameOverEventHandler.ev_keydown` (input_handlers.py lines 422-424):
escape invokes `on_quit`, which raises `QuitWithoutSaving`. -/
def GameOverEventHandler.ev_keydown (e : Engine) (sym : Nat) : DispatchOut :=
  if sym = KeySym.ESCAPE then .quitWithoutSaving
  else .ret none (.gameOver e)

/-- `HistoryViewer.ev_keydown` (input_handlers.py lines 456-471). -/
def HistoryViewer.ev_keydown (e : Engine) (log_length : Nat) (cursor : Int)
    (sym : Nat) : DispatchOut :=
  match CURSOR_Y_KEYS.lookup sym with
  | some adjust =>
    let newCursor : Int :=
      if adjust < 0 ∧ cursor = 0 then (log_length : Int) - 1
      else if adjust > 0 ∧ cursor = (log_length : Int) - 1 then 0
      else max 0 (min (cursor + adjust) ((log_length : Int) - 1))
    .ret none (.historyViewer e log_length newCursor)
  | none =>
    if sym = KeySym.HOME then
      .ret none (.historyViewer e log_length 0)
    else if sym = KeySym.END then
      .ret none (.historyViewer e log_length ((log_length : Int) - 1))
    else
      .ret (some (.handler (.mainGame e))) (.historyViewer e log_length cursor)

/-- `MainMenu.ev_keydown` (setup_game.py lines 99-115).  The New Game branch
calls `new_game()`, whose body (line 33) reads `enitity_factories.player`, a
misspelling of the imported module `entity_factories`, so it raises
`NameError` before an engine is built. -/
def MainMenu.ev_keydown (X : Externals) (sym : Nat) : DispatchOut :=
  if sym = KeySym.Q ∨ sym = KeySym.ESCAPE then
    .systemExit
  else if sym = KeySym.C then
    match load_game X.read_savegame X.decode with
    | .ok eng => .ret (some (.handler (.mainGame eng))) .mainMenu
    | .fileNotFound =>
      .ret (some (.handler (.popup .mainMenu ("No saved games to load."))))
        .mainMenu
    | .err msg =>
      .ret (some (.handler (.popup .mainMenu ("Failed to load save:\n" ++ msg))))
        .mainMenu
  else if sym = KeySym.N then
    .error ("NameError") .mainMenu
  else
    .ret none .mainMenu

/-- The `tcod.event.EventDispatch` dispatch, per handler class.  Mouse motion
(input_handlers.py lines 149-151) updates the engine's cursor only for
in-bounds tiles; `SelectIndexHandler.ev_mousebuttondown` (lines 311-318) reads
`event.title`, a misspelling of `event.tile`, so every mouse click in a
targeting mode raises `AttributeError`; the inventory modes inherit
`AskUserEventHandler.ev_mousebuttondown` (lines 173-177), which exits to the
main game; every other handler inherits the library default, which returns
`None`. -/
def dispatch (X : Externals) (h : Handler) (ev : Event) : DispatchOut :=
  match ev with
  | .keyDown sym mod =>
    match h with
    | .mainMenu => MainMenu.ev_keydown X sym
    | .popup parent text => .ret (some (.handler parent)) (.popup parent text)
    | .mainGame e => MainGameEventHandler.ev_keydown e sym mod
    | .gameOver e => GameOverEventHandler.ev_keydown e sym
    | .historyViewer e len cur => HistoryViewer.ev_keydown e len cur sym
    | .inventoryActivate e =>
      InventoryEventHandler.ev_keydown X (.inventoryActivate e) true e sym
    | .inventoryDrop e =>
      InventoryEventHandler.ev_keydown X (.inventoryDrop e) false e sym
    | .look e => SelectIndexHandler.ev_keydown (.look e) e sym mod
    | .singleRanged e cb =>
      SelectIndexHandler.ev_keydown (.singleRanged e cb) e sym mod
    | .areaRanged e r cb =>
      SelectIndexHandler.ev_keydown (.areaRanged e r cb) e sym mod
  | .mouseMotion x y =>
    match h.engineOf with
    | some e =>
      if e.game_map.in_bounds x y then
        .ret none (h.withEngine { e with mouse_location := (x, y) })
      else
        .ret none h
    | none => .ret none h
  | .mouseButtonDown _ _ _ =>
    match h with
    | .look e => .error ("AttributeError") (.look e)
    | .singleRanged e cb => .error ("AttributeError") (.singleRanged e cb)
    | .areaRanged e r cb => .error ("AttributeError") (.areaRanged e r cb)
    | .inventoryActivate e =>
      .ret (some (.handler (.mainGame e))) (.inventoryActivate e)
    | .inventoryDrop e =>
      .ret (some (.handler (.mainGame e))) (.inventoryDrop e)
    | other => .ret none other

/-! ### The turn pipeline -/

/-- `EventHandler.handle_action` (input_handlers.py lines 130-147): `None`
advances nothing; a performed action that raises `Impossible` appends the
reason to the message log and reports no turn consumed; otherwise the engine
runs the enemy turns, then recomputes the field of view, and a consumed turn
is reported. -/
def handle_action (X : Externals) (e : Engine) (action : Option ActionVal) :
    Bool × Engine :=
  match action with
  | none => (false, e)
  | some a =>
    match X.perform a e with
    | .impossible reason =>
      (false, { e with
        message_log := e.message_log.add_message reason Color.impossible })
    | .ok e1 => (true, X.update_fov (X.handle_enemy_turns e1))

/-- Result of `handle_events`: the next active handler, or a raised
exception. -/
inductive HandleResult where
  | next (h : Handler)
  | systemExit
  | quitWithoutSaving
  | error (kind : String) (self : Handler)

/-- `BaseEventHandler.handle_events` (input_handlers.py lines 74-80) for the
engine-less handlers (a returned action trips the assertion), and
`EventHandler.handle_events` (lines 118-128) for the engine-holding ones:
a returned handler becomes the next active handler; otherwise the action (or
`None`) goes through `handle_action`, and a consumed turn moves to the game
over handler when the player is no longer alive and to the main game handler
otherwise, while an unconsumed turn keeps the current handler. -/
def handle_events (X : Externals) (h : Handler) (ev : Event) : HandleResult :=
  match dispatch X h ev with
  | .systemExit => .systemExit
  | .quitWithoutSaving => .quitWithoutSaving
  | .error k self => .error k self
  | .ret r self =>
    match self.engineOf with
    | none =>
      match r with
      | some (.handler h2) => .next h2
      | some (.action _) => .error ("AssertionError") self
      | none => .next self
    | some e =>
      match r with
      | some (.handler h2) => .next h2
      | _ =>
        let a : Option ActionVal :=
          match r with
          | some (.action a) => some a
          | _ => none
        let res := handle_action X e a
        if res.1 = true then
          if res.2.player.is_alive = false then .next (.gameOver res.2)
          else .next (.mainGame res.2)
        else
          .next (self.withEngine res.2)

/-! ### Spec-side predicates and sample data -/

/-- The engine's cursor/mouse location lies within map bounds. -/
def mouseInBounds (e : Engine) : Prop :=
  e.game_map.in_bounds e.mouse_location.1 e.mouse_location.2 = true

/-- The player's position lies within map bounds. -/
def playerInBounds (e : Engine) : Prop :=
  e.game_map.in_bounds e.player.x e.player.y = true

/-- The external collaborators preserve the cursor-in-bounds invariant:
a performed action, the enemy-turn phase and the visibility recompute keep the
cursor in bounds, and the consumable hook keeps it in bounds both in the
engine it returns and in any handler it constructs. -/
def Externals.preservesMouse (X : Externals) : Prop :=
  (∀ a e e1, mouseInBounds e → X.perform a e = .ok e1 → mouseInBounds e1)
  ∧ (∀ e, mouseInBounds e → mouseInBounds (X.handle_enemy_turns e))
  ∧ (∀ e, mouseInBounds e → mouseInBounds (X.update_fov e))
  ∧ (∀ it e, mouseInBounds e →
      mouseInBounds (X.get_action it e).2
      ∧ ∀ h2 e2, (X.get_action it e).1 = some (.handler h2) →
          h2.engineOf = some e2 → mouseInBounds e2)

/-- Every engine reachable from a dispatch result has its cursor in bounds:
the engine `self` ends up holding, and the engine held by any handler the
dispatch returns. -/
def DispatchOut.mouseInv : DispatchOut → Prop
  | .ret r self =>
    (∀ e', self.engineOf = some e' → mouseInBounds e')
    ∧ (∀ h2 e2, r = some (.handler h2) → h2.engineOf = some e2 → mouseInBounds e2)
  | .error _ self => ∀ e', self.engineOf = some e' → mouseInBounds e'
  | _ => True

/-- Every engine reachable from a `handle_events` result has its cursor in
bounds. -/
def HandleResult.mouseInv : HandleResult → Prop
  | .next h => ∀ e', h.engineOf = some e' → mouseInBounds e'
  | .error _ self => ∀ e', self.engineOf = some e' → mouseInBounds e'
  | _ => True

/-- Does a dispatch result hand an `Action` back to `handle_events`? -/
def DispatchOut.producesAction : DispatchOut → Bool
  | .ret (some (.action _)) _ => true
  | _ => false

/-- Did `handle_events` trip the `BaseEventHandler` assertion? -/
def HandleResult.isAssertionError : HandleResult → Bool
  | .error k _ => k == "AssertionError"
  | _ => false

def sampleItemA : Item := ⟨"Health Potion"⟩

def sampleItemB : Item := ⟨"Lightning Scroll"⟩

/-- A live player at tile (10, 10) with two inventory items. -/
def samplePlayer : Player := ⟨10, 10, true, [sampleItemA, sampleItemB]⟩

/-- An 80 by 43 map, the size `new_game` requests. -/
def sampleMap : GameMap := ⟨80, 43⟩

def sampleEngine : Engine :=
  { player := samplePlayer
    game_map := sampleMap
    message_log := ⟨[⟨"Welcome...", "welcome_text", 1⟩]⟩
    mouse_location := (10, 10)
    turn_count := 0 }

/-- Inert externals: every action performs as a no-op, the post-turn phases
are the identity, consumables produce nothing, no save file exists. -/
def sampleX : Externals :=
  { perform := fun _ e => .ok e
    handle_enemy_turns := id
    update_fov := id
    get_action := fun _ e => (none, e)
    read_savegame := .notFound
    decode := fun _ => .fail ("EOFError") }

/-- Externals whose `perform` always raises `Impossible`. -/
def XRej : Externals :=
  { sampleX with perform := fun _ _ => .impossible ("You cannot do that.") }

/-- Externals with a loadable save file. -/
def Xok : Externals :=
  { sampleX with
    read_savegame := .ok [1, 2, 3]
    decode := fun _ => .ok sampleEngine }

/-- Externals with a present but corrupt save file. -/
def Xcorrupt : Externals :=
  { sampleX with read_savegame := .ok [1, 2, 3] }

/-- A twenty-entry message history. -/
def histMessages : List Message :=
  (List.range 20).map (fun i => ⟨"event " ++ toString i, "white", 1⟩)

def histEngine : Engine := { sampleEngine with message_log := ⟨histMessages⟩ }

/-! ### Helper lemmas -/

theorem Handler.mode_withEngine (h : Handler) (e : Engine) :
    (h.withEngine e).mode = h.mode := by
  cases h <;> rfl

theorem Handler.engineOf_withEngine (h : Handler) (e e' : Engine)
    (he : h.engineOf = some e) : (h.withEngine e').engineOf = some e' := by
  cases h <;> simp_all [Handler.engineOf, Handler.withEngine]

/-- A dispatch that returns a value leaves `self` in the mode it started in
(only its engine, or the history cursor, may have been mutated). -/
theorem dispatch_ret_mode (X : Externals) (h : Handler) (ev : Event)
    (r : Option ActionOrHandler) (self : Handler)
    (hd : dispatch X h ev = .ret r self) : self.mode = h.mode := by
  cases ev <;> cases h <;>
    simp only [dispatch, MainMenu.ev_keydown, MainGameEventHandler.ev_keydown,
      GameOverEventHandler.ev_keydown, HistoryViewer.ev_keydown,
      InventoryEventHandler.ev_keydown, SelectIndexHandler.ev_keydown,
      SelectIndexHandler.on_index_selected, AskUserEventHandler.ev_keydown_default,
      Handler.engineOf, Handler.withEngine] at hd <;>
    (repeat' split at hd) <;>
    (try cases hd) <;>
    simp_all [Handler.mode, Handler.withEngine]

theorem mouseInBounds_dims (e : Engine) (hm : mouseInBounds e) :
    0 < e.game_map.width ∧ 0 < e.game_map.height := by
  simp only [mouseInBounds, GameMap.in_bounds, Bool.and_eq_true,
    decide_eq_true_eq] at hm
  omega

theorem in_bounds_clamp (m : GameMap) (x y : Int) (hw : 0 < m.width)
    (hh : 0 < m.height) :
    m.in_bounds (max 0 (min x (m.width - 1))) (max 0 (min y (m.height - 1)))
      = true := by
  simp only [GameMap.in_bounds, Bool.and_eq_true, decide_eq_true_eq]
  omega

theorem inv_of_engineOf_eq {E : Engine} (self : Handler)
    (hse : self.engineOf = some E) (hE : mouseInBounds E) :
    ∀ e', self.engineOf = some e' → mouseInBounds e' := by
  intro e' h'
  rw [hse] at h'
  injection h' with h''
  exact h'' ▸ hE

theorem mouseInv_ret_none (self : Handler)
    (hs : ∀ e', self.engineOf = some e' → mouseInBounds e') :
    (DispatchOut.ret none self).mouseInv := by
  refine ⟨hs, ?_⟩
  intro h2 e2 hr
  cases hr

theorem mouseInv_ret_action (a : ActionVal) (self : Handler)
    (hs : ∀ e', self.engineOf = some e' → mouseInBounds e') :
    (DispatchOut.ret (some (.action a)) self).mouseInv := by
  refine ⟨hs, ?_⟩
  intro h2 e2 hr
  simp at hr

theorem mouseInv_ret_opt_action (o : Option ActionVal) (self : Handler)
    (hs : ∀ e', self.engineOf = some e' → mouseInBounds e') :
    (DispatchOut.ret (o.map ActionOrHandler.action) self).mouseInv := by
  refine ⟨hs, ?_⟩
  intro h2 e2 hr
  cases o <;> simp at hr

theorem mouseInv_ret_handler (hv : Handler) (self : Handler)
    (hs : ∀ e', self.engineOf = some e' → mouseInBounds e')
    (hh : ∀ e2, hv.engineOf = some e2 → mouseInBounds e2) :
    (DispatchOut.ret (some (.handler hv)) self).mouseInv := by
  refine ⟨hs, ?_⟩
  intro h2 e2 hr h2e
  have hv2 : hv = h2 := by
    injection hr with hr1
    injection hr1
  exact hh e2 (hv2 ▸ h2e)

theorem handle_action_mouse (X : Externals) (hX : X.preservesMouse) (e : Engine)
    (a : Option ActionVal) (hm : mouseInBounds e) :
    mouseInBounds (handle_action X e a).2 := by
  obtain ⟨hperf, het, hfov, hget⟩ := hX
  cases a with
  | none => exact hm
  | some act =>
    simp only [handle_action]
    cases hp : X.perform act e with
    | impossible r => exact hm
    | ok e1 => exact hfov _ (het _ (hperf act e e1 hm hp))

set_option maxHeartbeats 2000000 in
/-- Dispatching any event from an engine-holding handler keeps every
reachable engine's cursor inside map bounds, assuming the player starts in
bounds, the cursor starts in bounds, and the external phases preserve the
invariant. -/
theorem dispatch_mouse (X : Externals) (hX : X.preservesMouse) (h : Handler)
    (ev : Event) (e : Engine) (he : h.engineOf = some e)
    (hpl : playerInBounds e) (hm : mouseInBounds e) :
    (dispatch X h ev).mouseInv := by
  obtain ⟨hwd, hht⟩ := mouseInBounds_dims e hm
  obtain ⟨hperf, het, hfov, hget⟩ := hX
  cases ev with
  | mouseMotion x y =>
    simp only [dispatch, he]
    by_cases hb : e.game_map.in_bounds x y = true
    · rw [if_pos hb]
      exact mouseInv_ret_none _
        (inv_of_engineOf_eq _ (Handler.engineOf_withEngine h e _ he) hb)
    · rw [if_neg hb]
      exact mouseInv_ret_none _ (inv_of_engineOf_eq _ he hm)
  | mouseButtonDown x y b =>
    cases h with
    | mainMenu => exact Option.noConfusion he
    | popup p t => exact Option.noConfusion he
    | mainGame e0 =>
      obtain rfl : e0 = e := by simpa [Handler.engineOf] using he
      exact mouseInv_ret_none _ (inv_of_engineOf_eq _ rfl hm)
    | gameOver e0 =>
      obtain rfl : e0 = e := by simpa [Handler.engineOf] using he
      exact mouseInv_ret_none _ (inv_of_engineOf_eq _ rfl hm)
    | historyViewer e0 len cur =>
      obtain rfl : e0 = e := by simpa [Handler.engineOf] using he
      exact mouseInv_ret_none _ (inv_of_engineOf_eq _ rfl hm)
    | inventoryActivate e0 =>
      obtain rfl : e0 = e := by simpa [Handler.engineOf] using he
      exact mouseInv_ret_handler _ _ (inv_of_engineOf_eq _ rfl hm)
        (inv_of_engineOf_eq _ rfl hm)
    | inventoryDrop e0 =>
      obtain rfl : e0 = e := by simpa [Handler.engineOf] using he
      exact mouseInv_ret_handler _ _ (inv_of_engineOf_eq _ rfl hm)
        (inv_of_engineOf_eq _ rfl hm)
    | look e0 =>
      obtain rfl : e0 = e := by simpa [Handler.engineOf] using he
      exact inv_of_engineOf_eq _ rfl hm
    | singleRanged e0 cb =>
      obtain rfl : e0 = e := by simpa [Handler.engineOf] using he
      exact inv_of_engineOf_eq _ rfl hm
    | areaRanged e0 rad cb =>
      obtain rfl : e0 = e := by simpa [Handler.engineOf] using he
      exact inv_of_engineOf_eq _ rfl hm
  | keyDown sym mod =>
    cases h with
    | mainMenu => exact Option.noConfusion he
    | popup p t => exact Option.noConfusion he
    | mainGame e0 =>
      obtain rfl : e0 = e := by simpa [Handler.engineOf] using he
      simp only [dispatch, MainGameEventHandler.ev_keydown]
      repeat' split
      all_goals first
        | trivial
        | exact mouseInv_ret_action _ _ (inv_of_engineOf_eq _ rfl hm)
        | exact mouseInv_ret_none _ (inv_of_engineOf_eq _ rfl hm)
        | exact mouseInv_ret_handler _ _ (inv_of_engineOf_eq _ rfl hm)
            (inv_of_engineOf_eq _ rfl hm)
        | exact mouseInv_ret_handler _ _ (inv_of_engineOf_eq _ rfl hpl)
            (inv_of_engineOf_eq _ rfl hpl)
    | gameOver e0 =>
      obtain rfl : e0 = e := by simpa [Handler.engineOf] using he
      simp only [dispatch, GameOverEventHandler.ev_keydown]
      split
      · trivial
      · exact mouseInv_ret_none _ (inv_of_engineOf_eq _ rfl hm)
    | historyViewer e0 len cur =>
      obtain rfl : e0 = e := by simpa [Handler.engineOf] using he
      simp only [dispatch, HistoryViewer.ev_keydown]
      repeat' split
      all_goals first
        | exact mouseInv_ret_none _ (inv_of_engineOf_eq _ rfl hm)
        | exact mouseInv_ret_handler _ _ (inv_of_engineOf_eq _ rfl hm)
            (inv_of_engineOf_eq _ rfl hm)
    | inventoryActivate e0 =>
      obtain rfl : e0 = e := by simpa [Handler.engineOf] using he
      simp only [dispatch, InventoryEventHandler.ev_keydown,
        AskUserEventHandler.ev_keydown_default]
      repeat' split
      all_goals first
        | exact ⟨inv_of_engineOf_eq _ rfl (hget _ _ hm).1,
            fun h2 e2 hr h2e => (hget _ _ hm).2 h2 e2 hr h2e⟩
        | exact mouseInv_ret_action _ _ (inv_of_engineOf_eq _ rfl hm)
        | exact inv_of_engineOf_eq _ rfl hm
        | exact mouseInv_ret_none _ (inv_of_engineOf_eq _ rfl hm)
        | exact mouseInv_ret_handler _ _ (inv_of_engineOf_eq _ rfl hm)
            (inv_of_engineOf_eq _ rfl hm)
    | inventoryDrop e0 =>
      obtain rfl : e0 = e := by simpa [Handler.engineOf] using he
      simp only [dispatch, InventoryEventHandler.ev_keydown,
        AskUserEventHandler.ev_keydown_default]
      repeat' split
      all_goals first
        | exact ⟨inv_of_engineOf_eq _ rfl (hget _ _ hm).1,
            fun h2 e2 hr h2e => (hget _ _ hm).2 h2 e2 hr h2e⟩
        | exact mouseInv_ret_action _ _ (inv_of_engineOf_eq _ rfl hm)
        | exact inv_of_engineOf_eq _ rfl hm
        | exact mouseInv_ret_none _ (inv_of_engineOf_eq _ rfl hm)
        | exact mouseInv_ret_handler _ _ (inv_of_engineOf_eq _ rfl hm)
            (inv_of_engineOf_eq _ rfl hm)
    | look e0 =>
      obtain rfl : e0 = e := by simpa [Handler.engineOf] using he
      simp only [dispatch, SelectIndexHandler.ev_keydown,
        SelectIndexHandler.on_index_selected, AskUserEventHandler.ev_keydown_default]
      repeat' split
      all_goals first
        | exact mouseInv_ret_none _
            (inv_of_engineOf_eq _ rfl (in_bounds_clamp _ _ _ hwd hht))
        | exact mouseInv_ret_none _ (inv_of_engineOf_eq _ rfl hm)
        | exact mouseInv_ret_handler _ _ (inv_of_engineOf_eq _ rfl hm)
            (inv_of_engineOf_eq _ rfl hm)
    | singleRanged e0 cb =>
      obtain rfl : e0 = e := by simpa [Handler.engineOf] using he
      simp only [dispatch, SelectIndexHandler.ev_keydown,
        SelectIndexHandler.on_index_selected, AskUserEventHandler.ev_keydown_default]
      repeat' split
      all_goals first
        | exact mouseInv_ret_none _
            (inv_of_engineOf_eq _ rfl (in_bounds_clamp _ _ _ hwd hht))
        | exact mouseInv_ret_opt_action _ _ (inv_of_engineOf_eq _ rfl hm)
        | exact mouseInv_ret_none _ (inv_of_engineOf_eq _ rfl hm)
        | exact mouseInv_ret_handler _ _ (inv_of_engineOf_eq _ rfl hm)
            (inv_of_engineOf_eq _ rfl hm)
    | areaRanged e0 rad cb =>
      obtain rfl : e0 = e := by simpa [Handler.engineOf] using he
      simp only [dispatch, SelectIndexHandler.ev_keydown,
        SelectIndexHandler.on_index_selected, AskUserEventHandler.ev_keydown_default]
      repeat' split
      all_goals first
        | exact mouseInv_ret_none _
            (inv_of_engineOf_eq _ rfl (in_bounds_clamp _ _ _ hwd hht))
        | exact mouseInv_ret_opt_action _ _ (inv_of_engineOf_eq _ rfl hm)
        | exact mouseInv_ret_none _ (inv_of_engineOf_eq _ rfl hm)
        | exact mouseInv_ret_handler _ _ (inv_of_engineOf_eq _ rfl hm)
            (inv_of_engineOf_eq _ rfl hm)

/-! ### Claims -/

/-- C4: with two items in the inventory, pressing `f` (slot index 5, inside
the letter range but past the end of the inventory) adds the "Invalid entry"
message — and then the handler raises `UnboundLocalError` instead of staying
in the inventory mode, because the `except IndexError` arm falls through to
`return self.on_item_selected(selected_item)` with `selected_item` unbound. -/
theorem C4_invalid_inventory_slot :
    dispatch sampleX (.inventoryActivate sampleEngine) (.keyDown KeySym.F 0)
      = .error ("UnboundLocalError")
          (.inventoryActivate { sampleEngine with
            message_log :=
              sampleEngine.message_log.add_message ("Invalid entry") Color.invalid })
    ∧ handle_events sampleX (.inventoryActivate sampleEngine) (.keyDown KeySym.F 0)
      = .error ("UnboundLocalError")
          (.inventoryActivate { sampleEngine with
            message_log :=
              sampleEngine.message_log.add_message ("Invalid entry") Color.invalid }) :=
  ⟨rfl, rfl⟩

/-- C5: in every targeting mode, a mouse click raises `AttributeError`
(`SelectIndexHandler.ev_mousebuttondown` reads `event.title`, a misspelling
of `event.tile`) instead of confirming or cancelling back to the main game;
the other ask-user arms behave as claimed: an unconsumed click in an
inventory mode and an unconsumed key in a targeting mode cancel to the main
game, and a bare modifier key leaves the mode unchanged. -/
theorem C5_targeting_click_raises :
    handle_events sampleX (.look sampleEngine) (.mouseButtonDown 5 5 1)
      = .error ("AttributeError") (.look sampleEngine)
    ∧ handle_events sampleX (.singleRanged sampleEngine (fun _ => none))
        (.mouseButtonDown 5 5 1)
      = .error ("AttributeError") (.singleRanged sampleEngine (fun _ => none))
    ∧ handle_events sampleX (.areaRanged sampleEngine 3 (fun _ => none))
        (.mouseButtonDown 5 5 1)
      = .error ("AttributeError") (.areaRanged sampleEngine 3 (fun _ => none))
    ∧ handle_events sampleX (.inventoryActivate sampleEngine) (.mouseButtonDown 5 5 1)
      = .next (.mainGame sampleEngine)
    ∧ handle_events sampleX (.look sampleEngine) (.keyDown KeySym.LSHIFT 0)
      = .next (.look sampleEngine)
    ∧ handle_events sampleX (.look sampleEngine) (.keyDown KeySym.A 0)
      = .next (.mainGame sampleEngine) :=
  ⟨rfl, rfl, rfl, rfl, rfl, rfl⟩

/-- C6: selecting Continue in the main menu loads the saved engine: on
success the next handler is the main game holding the loaded engine; when the
save file does not exist it shows a popup reading "No saved games to load."
whose parent is the menu; on any other deserialization failure it shows a
popup containing the error text, again parented to the menu. -/
theorem C6_continue_load (X : Externals) :
    (∀ eng, load_game X.read_savegame X.decode = .ok eng →
      handle_events X .mainMenu (.keyDown KeySym.C 0) = .next (.mainGame eng))
    ∧ (X.read_savegame = .notFound →
      handle_events X .mainMenu (.keyDown KeySym.C 0)
        = .next (.popup .mainMenu ("No saved games to load.")))
    ∧ (∀ data msg, X.read_savegame = .ok data → X.decode data = .fail msg →
      handle_events X .mainMenu (.keyDown KeySym.C 0)
        = .next (.popup .mainMenu ("Failed to load save:\n" ++ msg))) := by
  refine ⟨?_, ?_, ?_⟩
  · intro eng hl
    simp [handle_events, dispatch, MainMenu.ev_keydown, hl, Handler.engineOf,
      KeySym.C, KeySym.Q, KeySym.ESCAPE]
  · intro hnf
    simp [handle_events, dispatch, MainMenu.ev_keydown, load_game, hnf,
      Handler.engineOf, KeySym.C, KeySym.Q, KeySym.ESCAPE]
  · intro data msg hr hdm
    simp [handle_events, dispatch, MainMenu.ev_keydown, load_game, hr, hdm,
      Handler.engineOf, KeySym.C, KeySym.Q, KeySym.ESCAPE]

/-- C6 witness: the three load outcomes at concrete externals. -/
theorem C6_continue_load_witness :
    handle_events Xok .mainMenu (.keyDown KeySym.C 0) = .next (.mainGame sampleEngine)
    ∧ handle_events sampleX .mainMenu (.keyDown KeySym.C 0)
        = .next (.popup .mainMenu ("No saved games to load."))
    ∧ handle_events Xcorrupt .mainMenu (.keyDown KeySym.C 0)
        = .next (.popup .mainMenu ("Failed to load save:\n" ++ "EOFError")) :=
  ⟨(C6_continue_load Xok).1 sampleEngine rfl,
   (C6_continue_load sampleX).2.1 rfl,
   (C6_continue_load Xcorrupt).2.2 [1, 2, 3] ("EOFError") rfl rfl⟩

/-- C7: for each of the 8 movement directions, the arrow/navigation-key
alias, the numpad alias and the vi-key alias, pressed in the main game
(InPlay) mode, all submit the identical bump (move) action with that
direction's displacement. -/
theorem C7_move_key_aliases (X : Externals) (e : Engine) (mod : Nat) :
    (dispatch X (.mainGame e) (.keyDown KeySym.UP mod)
        = .ret (some (.action (.bump 0 (-1)))) (.mainGame e)
      ∧ dispatch X (.mainGame e) (.keyDown KeySym.KP_8 mod)
        = .ret (some (.action (.bump 0 (-1)))) (.mainGame e)
      ∧ dispatch X (.mainGame e) (.keyDown KeySym.K mod)
        = .ret (some (.action (.bump 0 (-1)))) (.mainGame e))
    ∧ (dispatch X (.mainGame e) (.keyDown KeySym.DOWN mod)
        = .ret (some (.action (.bump 0 1))) (.mainGame e)
      ∧ dispatch X (.mainGame e) (.keyDown KeySym.KP_2 mod)
        = .ret (some (.action (.bump 0 1))) (.mainGame e)
      ∧ dispatch X (.mainGame e) (.keyDown KeySym.J mod)
        = .ret (some (.action (.bump 0 1))) (.mainGame e))
    ∧ (dispatch X (.mainGame e) (.keyDown KeySym.LEFT mod)
        = .ret (some (.action (.bump (-1) 0))) (.mainGame e)
      ∧ dispatch X (.mainGame e) (.keyDown KeySym.KP_4 mod)
        = .ret (some (.action (.bump (-1) 0))) (.mainGame e)
      ∧ dispatch X (.mainGame e) (.keyDown KeySym.H mod)
        = .ret (some (.action (.bump (-1) 0))) (.mainGame e))
    ∧ (dispatch X (.mainGame e) (.keyDown KeySym.RIGHT mod)
        = .ret (some (.action (.bump 1 0))) (.mainGame e)
      ∧ dispatch X (.mainGame e) (.keyDown KeySym.KP_6 mod)
        = .ret (some (.action (.bump 1 0))) (.mainGame e)
      ∧ dispatch X (.mainGame e) (.keyDown KeySym.L mod)
        = .ret (some (.action (.bump 1 0))) (.mainGame e))
    ∧ (dispatch X (.mainGame e) (.keyDown KeySym.HOME mod)
        = .ret (some (.action (.bump (-1) (-1)))) (.mainGame e)
      ∧ dispatch X (.mainGame e) (.keyDown KeySym.KP_7 mod)
        = .ret (some (.action (.bump (-1) (-1)))) (.mainGame e)
      ∧ dispatch X (.mainGame e) (.keyDown KeySym.Y mod)
        = .ret (some (.action (.bump (-1) (-1)))) (.mainGame e))
    ∧ (dispatch X (.mainGame e) (.keyDown KeySym.END mod)
        = .ret (some (.action (.bump (-1) 1))) (.mainGame e)
      ∧ dispatch X (.mainGame e) (.keyDown KeySym.KP_1 mod)
        = .ret (some (.action (.bump (-1) 1))) (.mainGame e)
      ∧ dispatch X (.mainGame e) (.keyDown KeySym.B mod)
        = .ret (some (.action (.bump (-1) 1))) (.mainGame e))
    ∧ (dispatch X (.mainGame e) (.keyDown KeySym.PAGEUP mod)
        = .ret (some (.action (.bump 1 (-1)))) (.mainGame e)
      ∧ dispatch X (.mainGame e) (.keyDown KeySym.KP_9 mod)
        = .ret (some (.action (.bump 1 (-1)))) (.mainGame e)
      ∧ dispatch X (.mainGame e) (.keyDown KeySym.U mod)
        = .ret (some (.action (.bump 1 (-1)))) (.mainGame e))
    ∧ (dispatch X (.mainGame e) (.keyDown KeySym.PAGEDOWN mod)
        = .ret (some (.action (.bump 1 1))) (.mainGame e)
      ∧ dispatch X (.mainGame e) (.keyDown KeySym.KP_3 mod)
        = .ret (some (.action (.bump 1 1))) (.mainGame e)
      ∧ dispatch X (.mainGame e) (.keyDown KeySym.N mod)
        = .ret (some (.action (.bump 1 1))) (.mainGame e)) :=
  ⟨⟨rfl, rfl, rfl⟩, ⟨rfl, rfl, rfl⟩, ⟨rfl, rfl, rfl⟩, ⟨rfl, rfl, rfl⟩,
   ⟨rfl, rfl, rfl⟩, ⟨rfl, rfl, rfl⟩, ⟨rfl, rfl, rfl⟩, ⟨rfl, rfl, rfl⟩⟩

/-- C8 counterexample: with a 20-entry history and the cursor at entry 5, a
page-up (a move of -10, which would go past the start) lands on entry 0, not
on the opposite end (entry 19) as the claim requires. -/
theorem C8_counterexample :
    dispatch sampleX (.historyViewer histEngine 20 5) (.keyDown KeySym.PAGEUP 0)
      = .ret none (.historyViewer histEngine 20 0)
    ∧ decide ((0 : Int) = 20 - 1) = false :=
  ⟨rfl, rfl⟩

/-- C8 (amended): the history cursor starts at the last log entry on entry;
up/down move it by 1 and the page keys by 10; a move wraps to the opposite
end only when the cursor is exactly on the first entry moving up, or exactly
on the last entry moving down — any other move is clamped to the ends, not
wrapped; Home and End jump to the first and last entry; any other key exits
back to the main game. -/
theorem C8_history_viewer (X : Externals) (e : Engine) (len : Nat)
    (cur : Int) (sym : Nat) (hlen : 0 < len) :
    (dispatch X (.mainGame e) (.keyDown KeySym.V 0)
      = .ret (some (.handler (.historyViewer e e.message_log.messages.length
          ((e.message_log.messages.length : Int) - 1)))) (.mainGame e))
    ∧ (dispatch X (.historyViewer e len cur) (.keyDown sym 0)
      = match CURSOR_Y_KEYS.lookup sym with
        | some adjust =>
          .ret none (.historyViewer e len
            (if cur = 0 ∧ adjust < 0 then (len : Int) - 1
             else if cur = (len : Int) - 1 ∧ adjust > 0 then 0
             else min (max (cur + adjust) 0) ((len : Int) - 1)))
        | none =>
          if sym = KeySym.HOME then .ret none (.historyViewer e len 0)
          else if sym = KeySym.END then
            .ret none (.historyViewer e len ((len : Int) - 1))
          else .ret (some (.handler (.mainGame e))) (.historyViewer e len cur)) := by
  constructor
  · rfl
  · cases hsym : CURSOR_Y_KEYS.lookup sym with
    | some adjust =>
      have hcl : max 0 (min (cur + adjust) ((len : Int) - 1))
          = min (max (cur + adjust) 0) ((len : Int) - 1) := by omega
      simp only [dispatch, HistoryViewer.ev_keydown, hsym, hcl]
      congr 2
      split_ifs <;> omega
    | none => simp only [dispatch, HistoryViewer.ev_keydown, hsym]

/-- C8 witness: on a 20-entry history the viewer opens with the cursor on
entry 19 (the last), and a plain down-move from entry 5 goes to entry 6. -/
theorem C8_history_viewer_witness :
    (dispatch sampleX (.mainGame histEngine) (.keyDown KeySym.V 0)
      = .ret (some (.handler (.historyViewer histEngine 20 19))) (.mainGame histEngine))
    ∧ (dispatch sampleX (.historyViewer histEngine 20 5) (.keyDown KeySym.DOWN 0)
      = .ret none (.historyViewer histEngine 20 6)) :=
  C8_history_viewer sampleX histEngine 20 5 KeySym.DOWN (by decide)

/-- C1: a submitted action whose outcome is Rejected (the `Impossible`
signal) appends the rejection reason to the message log and changes nothing
else of the engine (in particular turn counter and player are untouched),
reports that no turn was consumed, runs neither the enemy-turn phase nor the
visibility recompute (the result does not depend on `handle_enemy_turns` or
`update_fov`, over which the statement is universally quantified), and the
machine stays in the same mode. -/
theorem C1_rejected_action (X : Externals) (h : Handler) (ev : Event)
    (a : ActionVal) (self : Handler) (e : Engine) (reason : String)
    (hd : dispatch X h ev = .ret (some (.action a)) self)
    (he : self.engineOf = some e)
    (hp : X.perform a e = .impossible reason) :
    handle_action X e (some a)
      = (false, { e with
          message_log := e.message_log.add_message reason Color.impossible })
    ∧ handle_events X h ev
      = .next (self.withEngine { e with
          message_log := e.message_log.add_message reason Color.impossible })
    ∧ (self.withEngine { e with
          message_log := e.message_log.add_message reason Color.impossible }).mode
        = h.mode := by
  have h1 : handle_action X e (some a)
      = (false, { e with
          message_log := e.message_log.add_message reason Color.impossible }) := by
    simp [handle_action, hp]
  refine ⟨h1, ?_, ?_⟩
  · simp [handle_events, hd, he, h1]
  · rw [Handler.mode_withEngine]
    exact dispatch_ret_mode X h ev _ _ hd

/-- C1 witness: a rejected bump submitted from the main game appends the
reason to the log, consumes no turn and keeps the mode. -/
theorem C1_rejected_action_witness :
    handle_action XRej sampleEngine (some (.bump 0 (-1)))
      = (false, { sampleEngine with
          message_log := sampleEngine.message_log.add_message
            ("You cannot do that.") Color.impossible })
    ∧ handle_events XRej (.mainGame sampleEngine) (.keyDown KeySym.UP 0)
      = .next (.mainGame { sampleEngine with
          message_log := sampleEngine.message_log.add_message
            ("You cannot do that.") Color.impossible })
    ∧ (Handler.mainGame { sampleEngine with
          message_log := sampleEngine.message_log.add_message
            ("You cannot do that.") Color.impossible }).mode
        = (Handler.mainGame sampleEngine).mode :=
  C1_rejected_action XRej (.mainGame sampleEngine) (.keyDown KeySym.UP 0)
    (.bump 0 (-1)) (.mainGame sampleEngine) sampleEngine ("You cannot do that.")
    rfl rfl rfl

/-- C2: a submitted action that performs without rejection first runs the
enemy-turn phase, then recomputes the field of view (the resulting engine is
`update_fov` applied after `handle_enemy_turns`), and the next mode is game
over exactly when the player is no longer alive afterwards, else the main
game. -/
theorem C2_advanced_action (X : Externals) (h : Handler) (ev : Event)
    (a : ActionVal) (self : Handler) (e e1 : Engine)
    (hd : dispatch X h ev = .ret (some (.action a)) self)
    (he : self.engineOf = some e)
    (hp : X.perform a e = .ok e1) :
    handle_action X e (some a) = (true, X.update_fov (X.handle_enemy_turns e1))
    ∧ handle_events X h ev
      = (if (X.update_fov (X.handle_enemy_turns e1)).player.is_alive = true
         then .next (.mainGame (X.update_fov (X.handle_enemy_turns e1)))
         else .next (.gameOver (X.update_fov (X.handle_enemy_turns e1)))) := by
  have h1 : handle_action X e (some a)
      = (true, X.update_fov (X.handle_enemy_turns e1)) := by
    simp [handle_action, hp]
  refine ⟨h1, ?_⟩
  simp only [handle_events, hd, he, h1]
  cases hE : (X.update_fov (X.handle_enemy_turns e1)).player.is_alive <;> simp [hE]

/-- C2 witness: an advanced bump with identity post-turn phases and a live
player lands back in the main game. -/
theorem C2_advanced_action_witness :
    handle_action sampleX sampleEngine (some (.bump 0 (-1))) = (true, sampleEngine)
    ∧ handle_events sampleX (.mainGame sampleEngine) (.keyDown KeySym.UP 0)
      = .next (.mainGame sampleEngine) :=
  C2_advanced_action sampleX (.mainGame sampleEngine) (.keyDown KeySym.UP 0)
    (.bump 0 (-1)) (.mainGame sampleEngine) sampleEngine sampleEngine rfl rfl rfl

/-- C3: in every targeting mode a movement key moves the cursor by the
direction's unit step times a factor that is the product of 5 when a shift
modifier is held, 10 when control, 20 when alt (1 with none held), and the
result is clamped inside the map bounds however far the move would
overshoot. -/
theorem C3_targeting_cursor (X : Externals) (h : Handler) (e : Engine)
    (sym mod : Nat) (d : Int × Int) (F : Int)
    (ht : h.isTargeting = true)
    (he : h.engineOf = some e)
    (hk : MOVE_KEYS.lookup sym = some d)
    (hF : F = (if mod &&& (Modifier.LSHIFT ||| Modifier.RSHIFT) ≠ 0 then 5 else 1)
        * (if mod &&& (Modifier.LCTRL ||| Modifier.RCTRL) ≠ 0 then 10 else 1)
        * (if mod &&& (Modifier.LALT ||| Modifier.RALT) ≠ 0 then 20 else 1))
    (hw : 0 < e.game_map.width) (hh : 0 < e.game_map.height) :
    dispatch X h (.keyDown sym mod)
      = .ret none (h.withEngine { e with mouse_location :=
          (max 0 (min (e.mouse_location.1 + d.1 * F) (e.game_map.width - 1)),
           max 0 (min (e.mouse_location.2 + d.2 * F) (e.game_map.height - 1))) })
    ∧ 0 ≤ max 0 (min (e.mouse_location.1 + d.1 * F) (e.game_map.width - 1))
    ∧ max 0 (min (e.mouse_location.1 + d.1 * F) (e.game_map.width - 1))
        < e.game_map.width
    ∧ 0 ≤ max 0 (min (e.mouse_location.2 + d.2 * F) (e.game_map.height - 1))
    ∧ max 0 (min (e.mouse_location.2 + d.2 * F) (e.game_map.height - 1))
        < e.game_map.height := by
  have hb : ∀ A B : Int, 0 < B →
      0 ≤ max 0 (min A (B - 1)) ∧ max 0 (min A (B - 1)) < B := by
    intro A B hB
    omega
  refine ⟨?_, (hb _ _ hw).1, (hb _ _ hw).2, (hb _ _ hh).1, (hb _ _ hh).2⟩
  subst hF
  cases h with
  | look e0 =>
    obtain rfl : e0 = e := by simpa [Handler.engineOf] using he
    simp only [dispatch, SelectIndexHandler.ev_keydown, hk]
    split_ifs <;> simp only [one_mul, mul_one]
  | singleRanged e0 cb =>
    obtain rfl : e0 = e := by simpa [Handler.engineOf] using he
    simp only [dispatch, SelectIndexHandler.ev_keydown, hk]
    split_ifs <;> simp only [one_mul, mul_one]
  | areaRanged e0 rad cb =>
    obtain rfl : e0 = e := by simpa [Handler.engineOf] using he
    simp only [dispatch, SelectIndexHandler.ev_keydown, hk]
    split_ifs <;> simp only [one_mul, mul_one]
  | mainMenu => simp [Handler.isTargeting] at ht
  | popup p t => simp [Handler.isTargeting] at ht
  | mainGame e0 => simp [Handler.isTargeting] at ht
  | gameOver e0 => simp [Handler.isTargeting] at ht
  | historyViewer e0 len cur => simp [Handler.isTargeting] at ht
  | inventoryActivate e0 => simp [Handler.isTargeting] at ht
  | inventoryDrop e0 => simp [Handler.isTargeting] at ht

/-- C3 witness: the spec scenario — cursor at (10,10) on an 80 by 43 map,
down pressed with left shift held in look mode, lands on (10,15), inside the
map. -/
theorem C3_targeting_cursor_witness :
    dispatch sampleX (.look sampleEngine) (.keyDown KeySym.DOWN Modifier.LSHIFT)
      = .ret none (.look { sampleEngine with mouse_location := (10, 15) })
    ∧ (0 : Int) ≤ 10
    ∧ (10 : Int) < 80
    ∧ (0 : Int) ≤ 15
    ∧ (15 : Int) < 43 :=
  C3_targeting_cursor sampleX (.look sampleEngine) sampleEngine
    KeySym.DOWN Modifier.LSHIFT (0, 1) 5 rfl rfl rfl (by decide)
    (by decide) (by decide)

/-- C9: assuming the player is in bounds, the cursor is in bounds and the
external phases preserve the cursor invariant, handling any event from an
engine-holding mode keeps every reachable engine's cursor/mouse location
inside map bounds: mouse motion updates it only for in-bounds tiles, entering
a targeting mode sets it to the player's position, and targeting cursor moves
clamp it to the map. -/
theorem C9_cursor_invariant (X : Externals) (h : Handler) (ev : Event)
    (e : Engine) (hX : X.preservesMouse) (he : h.engineOf = some e)
    (hpl : playerInBounds e) (hm : mouseInBounds e) :
    (handle_events X h ev).mouseInv := by
  have hd0 := dispatch_mouse X hX h ev e he hpl hm
  cases hdd : dispatch X h ev with
  | systemExit => simp only [handle_events, hdd, HandleResult.mouseInv]
  | quitWithoutSaving => simp only [handle_events, hdd, HandleResult.mouseInv]
  | error k self =>
    rw [hdd] at hd0
    simp only [handle_events, hdd]
    exact hd0
  | ret r self =>
    rw [hdd] at hd0
    obtain ⟨hself, hhand⟩ := hd0
    cases hse : self.engineOf with
    | none =>
      cases r with
      | none =>
        simp only [handle_events, hdd, hse]
        intro e'' h''
        exact absurd (hse.symm.trans h'') (by simp)
      | some aoh =>
        cases aoh with
        | handler h2 =>
          simp only [handle_events, hdd, hse]
          exact fun e2 h2e => hhand h2 e2 rfl h2e
        | action a =>
          simp only [handle_events, hdd, hse]
          intro e'' h''
          exact absurd (hse.symm.trans h'') (by simp)
    | some e' =>
      have hm' := hself e' hse
      cases r with
      | some aoh =>
        cases aoh with
        | handler h2 =>
          simp only [handle_events, hdd, hse]
          exact fun e2 h2e => hhand h2 e2 rfl h2e
        | action a =>
          have hres : mouseInBounds (handle_action X e' (some a)).2 :=
            handle_action_mouse X hX e' (some a) hm'
          simp only [handle_events, hdd, hse]
          split
          · split
            · intro e2 h2e
              injection h2e with h3
              exact h3 ▸ hres
            · intro e2 h2e
              injection h2e with h3
              exact h3 ▸ hres
          · exact inv_of_engineOf_eq _
              (Handler.engineOf_withEngine self e' _ hse) hres
      | none =>
        have hres : mouseInBounds (handle_action X e' none).2 :=
          handle_action_mouse X hX e' none hm'
        simp only [handle_events, hdd, hse]
        split
        · split
          · intro e2 h2e
            injection h2e with h3
            exact h3 ▸ hres
          · intro e2 h2e
            injection h2e with h3
            exact h3 ▸ hres
        · exact inv_of_engineOf_eq _
            (Handler.engineOf_withEngine self e' _ hse) hres

/-- C9 witness: the invariant holds after an out-of-bounds mouse motion in
the main game with inert externals. -/
theorem C9_cursor_invariant_witness :
    (handle_events sampleX (.mainGame sampleEngine) (.mouseMotion 100 100)).mouseInv :=
  C9_cursor_invariant sampleX (.mainGame sampleEngine) (.mouseMotion 100 100)
    sampleEngine
    (by
      refine ⟨?_, ?_, ?_, ?_⟩
      · intro a e e1 hmv hp
        injection hp with hp1
        exact hp1 ▸ hmv
      · intro e hmv
        exact hmv
      · intro e hmv
        exact hmv
      · intro it e hmv
        exact ⟨hmv, fun h2 e2 hr => by simp [sampleX] at hr⟩)
    rfl rfl rfl

/-- C10: the engine-less modes (main menu and popup) never produce an Action
from any event, so no action is ever submitted through them, no turn is
consumed, and the base handler's assertion never fails — but pressing the
New Game key is an exception to "they return either the next mode or
nothing": it raises `NameError`, because `new_game` reads
`enitity_factories.player`, a misspelling of the imported `entity_factories`
module. -/
theorem C10_engineless_modes (X : Externals) (ev : Event) (p : Handler)
    (t : String) :
    (dispatch X .mainMenu ev).producesAction = false
    ∧ (dispatch X (.popup p t) ev).producesAction = false
    ∧ (handle_events X .mainMenu ev).isAssertionError = false
    ∧ (handle_events X (.popup p t) ev).isAssertionError = false
    ∧ handle_events X .mainMenu (.keyDown KeySym.N 0)
        = .error ("NameError") .mainMenu := by
  refine ⟨?_, ?_, ?_, ?_, rfl⟩
  · cases ev with
    | keyDown sym mod =>
      simp only [dispatch, MainMenu.ev_keydown]
      split_ifs <;>
        first
          | rfl
          | (cases load_game X.read_savegame X.decode <;> rfl)
    | mouseMotion x y => rfl
    | mouseButtonDown x y b => rfl
  · cases ev <;> rfl
  · cases ev with
    | keyDown sym mod =>
      simp only [handle_events, dispatch, MainMenu.ev_keydown]
      split_ifs <;>
        first
          | rfl
          | (cases load_game X.read_savegame X.decode <;> rfl)
    | mouseMotion x y => rfl
    | mouseButtonDown x y b => rfl
  · cases ev <;> rfl

end Rogue
